import Mathlib

/-!
Verification development for the `bpl` compiler (a BPL-to-x86-64 compiler
written in Python 2).  The definitions below are shallow embeddings of the
compiler's own functions, translated from:

  - src/bpl/scanner/token.py  (token kinds, keyword and symbol tables)
  - src/bpl/scanner/scanner.py  (DFA scanner, `get_next_token`)
  - src/bpl/parser/parser.py  (`expression`, `E`, `T`, `F`, `factor`)
  - src/bpl/type_checker/type_checker.py  (`add_dec`, `check_stmt`,
    `check_ret_stmt`, `check_expr`, `expect_type_match`)
  - src/bpl/code_gen/code_gen.py  (`write_instr`, `gen_expr`,
    `gen_comp_expr`, `assign_offsets_func`, `assign_offsets_stmt`,
    `gen_header`)

The compiler is Python 2 code with dynamic typing, and several behaviours
hinge on Python 2 value semantics (string repetition `s * n`, the
cross-type ordering that makes `str < int` false, `TypeError` on
`str - int`).  Those semantics are embedded explicitly and documented at
each definition.
-/

/-- Token kinds, mirroring the integer constants of `TokenType` in
src/bpl/scanner/token.py (lines 7-44). -/
inductive TokTy where
  | ID | NUM | STRLIT
  | INT | VOID | STRING | IF | ELSE | WHILE | RETURN | WRITE | WRITELN | READ
  | EQUAL | SEMI | COMMA | LSQUARE | RSQUARE | LCURLY | RCURLY
  | LPAREN | RPAREN
  | LESS | LEQUAL | BOOLEQ | NEQUAL | GEQUAL | GREATER
  | PLUS | MINUS | STAR | SLASH | MOD | AMP
  | EOF
  deriving DecidableEq, Repr

/-- A token, mirroring `Token` in src/bpl/scanner/token.py: a kind, the
lexeme string, and a 1-based line number. -/
structure Tok where
  typ : TokTy
  val : String
  line : Nat
  deriving DecidableEq, Repr

/-- The keyword table `TokenType.Keywords` of src/bpl/scanner/token.py
(lines 85-96). -/
def Keywords : List (String × TokTy) :=
  [("int", .INT), ("void", .VOID), ("string", .STRING), ("if", .IF),
   ("else", .ELSE), ("while", .WHILE), ("return", .RETURN),
   ("write", .WRITE), ("writeln", .WRITELN), ("read", .READ)]

/-- The symbol table `TokenType.Symbols` of src/bpl/scanner/token.py
(lines 98-120).  The scanner only tests membership and prefix
relationships and looks entries up by key, so the (unordered) Python dict
is embedded as an association list. -/
def Symbols : List (String × TokTy) :=
  [("=", .EQUAL), (";", .SEMI), (",", .COMMA), ("[", .LSQUARE),
   ("]", .RSQUARE), ("\x7b", .LCURLY), ("\x7d", .RCURLY),
   ("(", .LPAREN), (")", .RPAREN),
   ("<", .LESS), ("<=", .LEQUAL), ("==", .BOOLEQ), ("!=", .NEQUAL),
   (">=", .GEQUAL), (">", .GREATER),
   ("+", .PLUS), ("-", .MINUS), ("*", .STAR), ("/", .SLASH),
   ("%", .MOD), ("&", .AMP)]

/-- Python 2 string repetition `s * n` (and `n * s`): the string repeated
`n` times, the empty string when `n` is not positive. -/
def pyStrMul (s : String) (n : Int) : String :=
  String.join (List.replicate n.toNat s)

/-- Python 2 cross-type comparison `s < n` for a `str` value `s` and an
`int` value `n`.  In CPython 2, values of numeric types compare smaller
than values of every non-numeric type, so an `int` is always strictly
less than a `str` and `str < int` is always false, whatever the values
are. -/
def pyStrLtInt (_s : String) (_n : Int) : Bool :=
  false

/-- State of a `Scanner` object from src/bpl/scanner/scanner.py as seen by
`get_next_token`: the sequence of tokens the generator `self.tokens` has
yet to yield, and the `next_token` field (absent before the first call,
modelled with `Option`). -/
structure ScannerSt where
  tokens : List Tok
  next_token : Option Tok
  deriving DecidableEq, Repr

/-- Embedding of `Scanner.get_next_token` (src/bpl/scanner/scanner.py
lines 21-28): `next(self.tokens)` advances the generator and stores the
token in `next_token`; an exhausted generator raises `StopIteration`,
which the `except` clause swallows with `pass`, leaving the whole state
unchanged. -/
def get_next_token (s : ScannerSt) : ScannerSt :=
  match s.tokens with
  | [] => s
  | t :: ts => { tokens := ts, next_token := some t }

/-- Iterate `get_next_token` a number of times.  Used to speak about
arbitrarily many further advances. -/
def iterGetNext : Nat → ScannerSt → ScannerSt
  | 0, s => s
  | n + 1, s => iterGetNext n (get_next_token s)

/-- Claim C10: once the scanner's token stream is exhausted, every further
call to `Scanner.get_next_token` leaves the `next_token` field unchanged
(neither raising nor clearing it), so after the EOF token has been
delivered the current token stays that EOF token under arbitrarily many
further advances. -/
theorem get_next_token_fixed_after_exhaustion
    (s : ScannerSt) (h : s.tokens = []) (n : Nat) :
    iterGetNext n s = s ∧ (iterGetNext n s).next_token = s.next_token := by
  have key : iterGetNext n s = s := by
    induction n with
    | zero => rfl
    | succ n ih =>
      have hstep : get_next_token s = s := by
        unfold get_next_token
        rw [h]
      simpa [iterGetNext, hstep] using ih
  exact ⟨key, by rw [key]⟩

/-- Witness for C10: a concrete exhausted scanner state holding the EOF
token is untouched by three further advances. -/
theorem get_next_token_fixed_after_exhaustion_witness :
    (ScannerSt.mk [] (some ⟨.EOF, "EOF", 1⟩)).tokens = [] ∧
    (iterGetNext 3 (ScannerSt.mk [] (some ⟨.EOF, "EOF", 1⟩))
        = ScannerSt.mk [] (some ⟨.EOF, "EOF", 1⟩) ∧
      (iterGetNext 3 (ScannerSt.mk [] (some ⟨.EOF, "EOF", 1⟩))).next_token
        = (ScannerSt.mk [] (some ⟨.EOF, "EOF", 1⟩)).next_token) :=
  ⟨rfl, get_next_token_fixed_after_exhaustion _ rfl 3⟩

/-- The six DFA states of `Scanner._next_token_gen`
(src/bpl/scanner/scanner.py lines 45-51). -/
inductive DState where
  | START | KEY_ID | NUMBER | STRLIT | SYMBOL | COMMENT
  deriving DecidableEq, Repr

/-- Python 2 `str.isspace()` for a single ASCII character. -/
def pyIsSpace (c : Char) : Bool :=
  c = ' ' ∨ c = '\t' ∨ c = '\n' ∨ c = '\x0b' ∨ c = '\x0c' ∨ c = '\x0d'

/-- Python 2 `str.isalpha()` for a single ASCII character. -/
def pyIsAlpha (c : Char) : Bool :=
  ('a' ≤ c ∧ c ≤ 'z') ∨ ('A' ≤ c ∧ c ≤ 'Z')

/-- Python 2 `str.isdigit()` for a single ASCII character. -/
def pyIsDigit (c : Char) : Bool :=
  '0' ≤ c ∧ c ≤ '9'

/-- Python 2 `str.isalnum()` for a single ASCII character. -/
def pyIsAlnum (c : Char) : Bool :=
  pyIsAlpha c ∨ pyIsDigit c

/-- Boolean prefix test on character lists: `charsPrefix p s` holds when
`p` is a prefix of `s`.  Python's `sym.startswith(s)`. -/
def charsPrefix : List Char → List Char → Bool
  | [], _ => true
  | _ :: _, [] => false
  | p :: ps, c :: cs => p == c && charsPrefix ps cs

/-- The scanner's prefix test
`[sym for sym in TokenType.Symbols if sym.startswith(s)]` being nonempty
(src/bpl/scanner/scanner.py lines 85-86 and 136-137). -/
def symbolPrefixExists (s : String) : Bool :=
  Symbols.any (fun p => charsPrefix s.data p.1.data)

/-- Dictionary lookup `TokenType.Symbols[s]`; `none` models a `KeyError`. -/
def symbolLookup (s : String) : Option TokTy :=
  (Symbols.find? (fun p => p.1 == s)).map (fun p => p.2)

/-- Dictionary lookup and membership for `TokenType.Keywords`. -/
def keywordLookup (s : String) : Option TokTy :=
  (Keywords.find? (fun p => p.1 == s)).map (fun p => p.2)

/-- The mutable locals of the scanning loop in `Scanner._next_token_gen`
(src/bpl/scanner/scanner.py lines 40-56), plus the list of tokens yielded
so far. -/
structure ScanSt where
  i : Nat
  line : Nat
  line_begin : Nat
  cur_str : String
  state : DState
  toks : List Tok
  deriving DecidableEq, Repr

/-- One iteration of the `while i < len(buf)` loop of
`Scanner._next_token_gen` (src/bpl/scanner/scanner.py lines 58-153),
branch by branch.  `Except.error` models a raised exception (unknown
character, newline in a string literal, or a `KeyError` on the symbol
table). -/
def scanStep (buf : List Char) (st : ScanSt) : Except String ScanSt :=
  match buf.get? st.i with
  | none => .error "internal: index out of range"
  | some c =>
    match st.state with
    | .START =>
      if pyIsSpace c then
        if c = '\n' then
          .ok { st with line := st.line + 1, line_begin := st.i, i := st.i + 1 }
        else
          .ok { st with i := st.i + 1 }
      else if st.i < buf.length - 1 ∧ c = '/' ∧ buf.get? (st.i + 1) = some '*' then
        .ok { st with state := .COMMENT, i := st.i + 2 }
      else if c = '"' then
        .ok { st with state := .STRLIT, i := st.i + 1 }
      else if pyIsAlpha c then
        .ok { st with cur_str := st.cur_str.push c, state := .KEY_ID, i := st.i + 1 }
      else if symbolPrefixExists (st.cur_str.push c) then
        .ok { st with cur_str := st.cur_str.push c, state := .SYMBOL, i := st.i + 1 }
      else if pyIsDigit c then
        .ok { st with cur_str := st.cur_str.push c, state := .NUMBER, i := st.i + 1 }
      else
        .error "Unknown character"
    | .COMMENT =>
      let st1 := if c = '\n' then { st with line := st.line + 1, line_begin := st.i } else st
      if st1.i < buf.length - 1 ∧ c = '*' ∧ buf.get? (st1.i + 1) = some '/' then
        .ok { st1 with i := st1.i + 2, state := .START }
      else
        .ok { st1 with i := st1.i + 1 }
    | .STRLIT =>
      if c = '\n' then
        .error "Unexpected newline in string literal"
      else if c ≠ '"' then
        .ok { st with cur_str := st.cur_str.push c, i := st.i + 1 }
      else
        .ok { st with toks := st.toks ++ [⟨.STRLIT, st.cur_str, st.line⟩],
                      cur_str := "", state := .START, i := st.i + 1 }
    | .KEY_ID =>
      if pyIsAlnum c ∨ c = '_' then
        .ok { st with cur_str := st.cur_str.push c, i := st.i + 1 }
      else
        match keywordLookup st.cur_str with
        | some kw =>
          .ok { st with toks := st.toks ++ [⟨kw, st.cur_str, st.line⟩],
                        cur_str := "", state := .START }
        | none =>
          .ok { st with toks := st.toks ++ [⟨.ID, st.cur_str, st.line⟩],
                        cur_str := "", state := .START }
    | .SYMBOL =>
      if symbolPrefixExists (st.cur_str.push c) then
        .ok { st with cur_str := st.cur_str.push c, i := st.i + 1 }
      else
        match symbolLookup st.cur_str with
        | some sy =>
          .ok { st with toks := st.toks ++ [⟨sy, st.cur_str, st.line⟩],
                        cur_str := "", state := .START }
        | none => .error "KeyError"
    | .NUMBER =>
      if pyIsDigit c then
        .ok { st with cur_str := st.cur_str.push c, i := st.i + 1 }
      else
        .ok { st with toks := st.toks ++ [⟨.NUM, st.cur_str, st.line⟩],
                      cur_str := "", state := .START }

/-- The scanning loop: iterate `scanStep` while `i < len(buf)`.  The fuel
argument only bounds the number of iterations; the loop advances `i` at
least every second iteration, so `2 * len(buf) + 2` iterations always
suffice. -/
def scanLoop (buf : List Char) : Nat → ScanSt → Except String ScanSt
  | 0, _ => .error "internal: out of fuel"
  | fuel + 1, st =>
    if st.i < buf.length then
      match scanStep buf st with
      | .error e => .error e
      | .ok st1 => scanLoop buf fuel st1
    else .ok st

/-- Embedding of `Scanner._next_token_gen` on a whole input: run the DFA
loop over the buffer, then apply the end-of-buffer checks of
src/bpl/scanner/scanner.py lines 155-165 (unclosed string or comment is
an error; otherwise a single EOF token is yielded).  Returns the full
list of yielded tokens. -/
def scanFile (src : String) : Except String (List Tok) :=
  let buf := src.data
  let init : ScanSt := ⟨0, 1, 0, "", .START, []⟩
  match scanLoop buf (2 * buf.length + 2) init with
  | .error e => .error e
  | .ok st =>
    match st.state with
    | .STRLIT => .error "Unclosed string literal"
    | .COMMENT => .error "Unclosed comment"
    | _ => .ok (st.toks ++ [⟨.EOF, "EOF", st.line⟩])

/-- Claim C4 (refuted; supporting evaluation): the scanner was claimed to
emit one token per maximal lexeme, including a final lexeme that ends
exactly at end-of-input, before the single EOF token.  In fact the
scanning loop of `Scanner._next_token_gen` exits as soon as `i` reaches
`len(buf)` and the end-of-buffer code (src/bpl/scanner/scanner.py lines
155-165) only checks for unclosed strings and comments, so a lexeme still
pending in the `cur_str` buffer is silently dropped: the input `<=` yields
only the EOF token, with no LEQUAL token, while the same input followed by
a space yields LEQUAL then EOF. -/
theorem scanner_drops_final_lexeme_lequal :
    scanFile "<=" = .ok [⟨.EOF, "EOF", 1⟩] ∧
    scanFile "<= " = .ok [⟨.LEQUAL, "<=", 1⟩, ⟨.EOF, "EOF", 1⟩] :=
  ⟨rfl, rfl⟩

/-- Operator-expression kinds: the `kind` argument the parser passes when
building an `OpExpNode` (src/bpl/parser/parser.py lines 421-438 and
455-479): `ASSIGN_EXP`, `COMP_EXP` or `ARITH_EXP`. -/
inductive OpKind where
  | assign | comp | arith
  deriving DecidableEq, Repr

/-- Expression nodes of the parse tree (src/bpl/parser/parsetree.py),
restricted to the expression grammar.  Every node records its
`line_number`. -/
inductive PNode where
  | varExp (line : Nat) (name : String)
  | arrExp (line : Nat) (name : String) (index : PNode)
  | funCallExp (line : Nat) (name : String) (args : List PNode)
  | readExp (line : Nat)
  | intExp (line : Nat) (val : String)
  | strExp (line : Nat) (val : String)
  | negExp (line : Nat) (e : PNode)
  | addrExp (line : Nat) (e : PNode)
  | derefExp (line : Nat) (e : PNode)
  | opExp (kind : OpKind) (line : Nat) (op : Tok) (l r : PNode)

/-- The `line_number` attribute of a parse tree node. -/
def PNode.lineNum : PNode → Nat
  | .varExp l _ => l
  | .arrExp l _ _ => l
  | .funCallExp l _ _ => l
  | .readExp l => l
  | .intExp l _ => l
  | .strExp l _ => l
  | .negExp l _ => l
  | .addrExp l _ => l
  | .derefExp l _ => l
  | .opExp _ l _ _ _ => l

/-- The membership test
`first_exp.kind in (VAR_EXP, ARR_EXP, DEREF_EXP)` used for validating the
left side of an assignment (src/bpl/parser/parser.py lines 409-411). -/
def PNode.isLvalKind : PNode → Bool
  | .varExp _ _ => true
  | .arrExp _ _ _ => true
  | .derefExp _ _ => true
  | _ => false

/-- Parser state: the scanner's current token (`Parser.cur_token`) and the
tokens not yet delivered.  Mirrors the `Scanner` the parser drives. -/
structure PSt where
  cur : Tok
  rest : List Tok
  deriving DecidableEq, Repr

/-- Embedding of `Parser.consume` (src/bpl/parser/parser.py lines 47-53):
advance the scanner.  On an exhausted stream `get_next_token` leaves the
current token in place (src/bpl/scanner/scanner.py lines 21-28). -/
def pConsume (s : PSt) : PSt :=
  match s.rest with
  | [] => s
  | t :: ts => ⟨t, ts⟩

/-- Embedding of `Parser.expect` (src/bpl/parser/parser.py lines 14-37)
specialised to a single acceptable token type: return the current token
and advance on a match, raise a `ParseException` otherwise.  The detailed
diagnostic text is abbreviated to the contextual message. -/
def pExpect (tt : TokTy) (msg : String) (s : PSt) : Except String (Tok × PSt) :=
  if s.cur.typ = tt then .ok (s.cur, pConsume s) else .error msg

/-- Embedding of `Parser.var` (src/bpl/parser/parser.py lines 625-632).
The source builds `VarExpNode(kind=..., line=..., name=...)`, but
`VarExpNode.__init__` has no parameter named `line` (its parameter is
`line_number`, src/bpl/parser/parsetree.py line 431), so the call raises
a `TypeError` whenever it is reached. -/
def pVar (_s : PSt) : Except String (PNode × PSt) :=
  .error "TypeError: init got an unexpected keyword argument line"

mutual

/-- Embedding of `Parser.expression` (src/bpl/parser/parser.py lines
398-441): parse an `E`; on `=`, validate the left side and fold into an
assignment; on a relational operator fold into a comparison.
`TokenType.Relops` is referenced at parser.py line 428 but is not defined
in src/bpl/scanner/token.py; the relational branch below is modelled from
the spec, which lists the relational operators `< <= == != >= >`.  The
first argument is recursion fuel. -/
def pExpression : Nat → PSt → Except String (PNode × PSt)
  | 0, _ => .error "internal: out of fuel"
  | fuel + 1, s => do
    let (first, s1) ← pE fuel s
    match s1.cur.typ with
    | .EQUAL =>
      if first.isLvalKind then
        let op := s1.cur
        let s2 := pConsume s1
        let (next, s3) ← pExpression fuel s2
        .ok (.opExp .assign first.lineNum op first next, s3)
      else
        .error "Cannot assign to this expression kind"
    | .LESS | .LEQUAL | .BOOLEQ | .NEQUAL | .GEQUAL | .GREATER =>
      let op := s1.cur
      let s2 := pConsume s1
      let (next, s3) ← pExpression fuel s2
      .ok (.opExp .comp first.lineNum op first next, s3)
    | _ => .ok (first, s1)

/-- Embedding of `Parser.E` (src/bpl/parser/parser.py lines 443-463):
parse a `T`, then iteratively fold `('+'|'-') T` onto the left. -/
def pE : Nat → PSt → Except String (PNode × PSt)
  | 0, _ => .error "internal: out of fuel"
  | fuel + 1, s => do
    let (t, s1) ← pT fuel s
    pEloop fuel t s1

/-- The `while self.cur_token().typ in (TokenType.PLUS, TokenType.MINUS)`
loop of `Parser.E` (src/bpl/parser/parser.py lines 452-462), with the
accumulated left tree as an argument. -/
def pEloop : Nat → PNode → PSt → Except String (PNode × PSt)
  | 0, _, _ => .error "internal: out of fuel"
  | fuel + 1, t, s =>
    match s.cur.typ with
    | .PLUS | .MINUS => do
      let op := s.cur
      let s1 := pConsume s
      let (r, s2) ← pT fuel s1
      pEloop fuel (.opExp .arith t.lineNum op t r) s2
    | _ => .ok (t, s)

/-- Embedding of `Parser.T` (src/bpl/parser/parser.py lines 465-480):
parse an `F`, then iteratively fold `('*'|'/'|'%') F` onto the left. -/
def pT : Nat → PSt → Except String (PNode × PSt)
  | 0, _ => .error "internal: out of fuel"
  | fuel + 1, s => do
    let (f, s1) ← pF fuel s
    pTloop fuel f s1

/-- The `while self.cur_token().typ in (STAR, SLASH, MOD)` loop of
`Parser.T` (src/bpl/parser/parser.py lines 468-479). -/
def pTloop : Nat → PNode → PSt → Except String (PNode × PSt)
  | 0, _, _ => .error "internal: out of fuel"
  | fuel + 1, f, s =>
    match s.cur.typ with
    | .STAR | .SLASH | .MOD => do
      let op := s.cur
      let s1 := pConsume s
      let (r, s2) ← pF fuel s1
      pTloop fuel (.opExp .arith f.lineNum op f r) s2
    | _ => .ok (f, s)

/-- Embedding of `Parser.F` (src/bpl/parser/parser.py lines 482-510):
unary minus, address-of and dereference prefixes, else a factor. -/
def pF : Nat → PSt → Except String (PNode × PSt)
  | 0, _ => .error "internal: out of fuel"
  | fuel + 1, s =>
    match s.cur.typ with
    | .MINUS => do
      let line := s.cur.line
      let s1 := pConsume s
      let (fact, s2) ← pFactor fuel s1
      .ok (.negExp line fact, s2)
    | .AMP => do
      let line := s.cur.line
      let s1 := pConsume s
      let (fact, s2) ← pFactor fuel s1
      .ok (.addrExp line fact, s2)
    | .STAR => do
      let line := s.cur.line
      let s1 := pConsume s
      let (fact, s2) ← pFactor fuel s1
      .ok (.derefExp line fact, s2)
    | _ => pFactor fuel s

/-- Embedding of `Parser.factor` (src/bpl/parser/parser.py lines
512-606): identifiers with optional indexing or call, `read ( )`,
a dereference via `Parser.var`, numbers, string literals and
parenthesised expressions. -/
def pFactor : Nat → PSt → Except String (PNode × PSt)
  | 0, _ => .error "internal: out of fuel"
  | fuel + 1, s =>
    match s.cur.typ with
    | .ID =>
      let name := s.cur
      let s1 := pConsume s
      match s1.cur.typ with
      | .LSQUARE => do
        let s2 := pConsume s1
        let (index, s3) ← pExpression fuel s2
        let (_, s4) ← pExpect .RSQUARE
          "Missing closing square bracket for array reference" s3
        .ok (.arrExp name.line name.val index, s4)
      | .LPAREN => do
        let s2 := pConsume s1
        let (args, s3) ← pArgs fuel s2
        let (_, s4) ← pExpect .RPAREN
          "Missing closing paren at function call" s3
        .ok (.funCallExp name.line name.val args, s4)
      | _ => .ok (.varExp name.line name.val, s1)
    | .READ => do
      let line := s.cur.line
      let s1 := pConsume s
      let (_, s2) ← pExpect .LPAREN "Missing opening paren at read expression" s1
      let (_, s3) ← pExpect .RPAREN "Missing closing paren at read expression" s2
      .ok (.readExp line, s3)
    | .STAR => do
      let line := s.cur.line
      let s1 := pConsume s
      let (v, s2) ← pVar s1
      .ok (.derefExp line v, s2)
    | .NUM =>
      let num := s.cur
      .ok (.intExp num.line num.val, pConsume s)
    | .STRLIT =>
      let str := s.cur
      .ok (.strExp str.line str.val, pConsume s)
    | .LPAREN => do
      let s1 := pConsume s
      let (e, s2) ← pExpression fuel s1
      let (_, s3) ← pExpect .RPAREN
        "Parenthesized expression must end in right paren" s2
      .ok (e, s3)
    | _ => .error "Unexpected token parsing factor"

/-- Embedding of `Parser.args` (src/bpl/parser/parser.py lines 608-613):
an empty argument list when the next token closes the call. -/
def pArgs : Nat → PSt → Except String (List PNode × PSt)
  | 0, _ => .error "internal: out of fuel"
  | fuel + 1, s =>
    match s.cur.typ with
    | .RPAREN => .ok ([], s)
    | _ => pArgsList fuel s

/-- Embedding of `Parser.args_list` (src/bpl/parser/parser.py lines
615-623), with the sibling chain flattened into a list. -/
def pArgsList : Nat → PSt → Except String (List PNode × PSt)
  | 0, _ => .error "internal: out of fuel"
  | fuel + 1, s => do
    let (e, s1) ← pExpression fuel s
    match s1.cur.typ with
    | .COMMA => do
      let s2 := pConsume s1
      let (restArgs, s3) ← pArgsList fuel s2
      .ok (e :: restArgs, s3)
    | _ => .ok ([e], s1)

end

/-- Claim C9: `Parser.E` and `Parser.T` parse chains of additive and
multiplicative operators iteratively from the left, so `a - b - c`
produces the tree `(a - b) - c` and `a / b * c` produces `(a / b) * c`,
for arbitrary identifiers and line numbers. -/
theorem e_and_t_parse_left_associative (a b c : String)
    (l1 l2 l3 l4 l5 l6 : Nat) :
    pE 20 ⟨⟨.ID, a, l1⟩, [⟨.MINUS, "-", l2⟩, ⟨.ID, b, l3⟩, ⟨.MINUS, "-", l4⟩,
                          ⟨.ID, c, l5⟩, ⟨.EOF, "EOF", l6⟩]⟩
      = .ok (.opExp .arith l1 ⟨.MINUS, "-", l4⟩
              (.opExp .arith l1 ⟨.MINUS, "-", l2⟩ (.varExp l1 a) (.varExp l3 b))
              (.varExp l5 c),
             ⟨⟨.EOF, "EOF", l6⟩, []⟩) ∧
    pE 20 ⟨⟨.ID, a, l1⟩, [⟨.SLASH, "/", l2⟩, ⟨.ID, b, l3⟩, ⟨.STAR, "*", l4⟩,
                          ⟨.ID, c, l5⟩, ⟨.EOF, "EOF", l6⟩]⟩
      = .ok (.opExp .arith l1 ⟨.STAR, "*", l4⟩
              (.opExp .arith l1 ⟨.SLASH, "/", l2⟩ (.varExp l1 a) (.varExp l3 b))
              (.varExp l5 c),
             ⟨⟨.EOF, "EOF", l6⟩, []⟩) :=
  ⟨rfl, rfl⟩

/-- BPL types, mirroring the integer constants of `BPLType` in
src/bpl/parser/parser.py (lines 635-653).  `BPLType.__eq__` compares the
integer codes, so equality is structural. -/
inductive BType where
  | INT | STRING | VOID | INT_PTR | STR_PTR | INT_ARR | STR_ARR
  deriving DecidableEq, Repr

/-- Python 2 comparison `x == BPLType(t)` where `x` may be `None`:
`None` equals no `BPLType` instance (`BPLType.__eq__` returns `False` for
a non-`BPLType` other, and `None` has no overriding equality), so the
comparison is true exactly for `some` of an equal type. -/
def pyOptEqType (x : Option BType) (t : BType) : Bool :=
  match x with
  | some u => u = t
  | none => false

/-- Declarations as the type checker and offset assigner see them: a
scalar variable, a sized array whose `size` attribute is the *string*
lexeme of the NUM token (the parser stores `token.val` without conversion,
src/bpl/parser/parser.py lines 121-124), or a function. -/
inductive Dec where
  | varDec (name : String)
  | arrDec (name : String) (size : String)
  | funDec (name : String)
  deriving DecidableEq, Repr

/-- Embedding of the validity check in `TypeChecker.add_dec`
(src/bpl/type_checker/type_checker.py lines 124-137): raise a
`TypeException` when `dec.kind == PTN.ARR_DEC and dec.size < 1`.  Since
`dec.size` is the string lexeme of the size token, `dec.size < 1` is a
Python 2 `str`-versus-`int` comparison and is always false (see
`pyStrLtInt`).  The symbol-table insertion and `is_global` marking that
follow the check involve no further failure and are not modelled. -/
def add_dec (dec : Dec) : Except String Unit :=
  match dec with
  | .arrDec _ size =>
    if pyStrLtInt size 1 then
      .error "Array declaration must have size of at least 1."
    else
      .ok ()
  | _ => .ok ()

/-- Claim C6 (refuted; supporting evaluation): a sized array declaration
of size 0 was claimed to draw a fatal error from semantic analysis, but
`add_dec` accepts it: the guard `dec.size < 1` compares the size lexeme
(a `str`) against an `int`, which in Python 2 is always false, so the
`TypeException` can never be raised — for size 0 just as for size 1. -/
theorem zero_size_array_dec_accepted :
    add_dec (.arrDec "a" "0") = .ok () ∧ add_dec (.arrDec "a" "1") = .ok () :=
  ⟨rfl, rfl⟩

/-- Expressions as seen by the checking pass of the type checker
(`TypeChecker.check_expr` and friends), restricted to the node kinds
needed by the statement rules: literals, `read()`, and variable
references.  A `varExp` carries the declared type of the declaration its
`dec` attribute was linked to by the resolver. -/
inductive TExpr where
  | intE (val : String)
  | strE (val : String)
  | readE
  | varE (decTyp : BType)
  deriving DecidableEq, Repr

/-- Statements as seen by `TypeChecker.check_stmt`
(src/bpl/type_checker/type_checker.py lines 200-226).  A compound
statement's `stmt_list` sibling chain is flattened into a list (`none`
in the source becomes `[]`). -/
inductive TStmt where
  | exprStmt (e : TExpr)
  | compStmt (stmt_list : List TStmt)
  | ifStmt (cond : TExpr) (true_body : TStmt) (false_body : Option TStmt)
  | whileStmt (cond : TExpr) (body : TStmt)
  | retStmt (val : Option TExpr)
  | writeStmt (e : TExpr)

/-- Embedding of `TypeChecker.check_expr`
(src/bpl/type_checker/type_checker.py lines 258-283) on the embedded
expression kinds, returning the type assigned to the node:
`check_int_expr` assigns INT, `check_str_expr` STRING, `check_read_expr`
INT, and `check_var_expr` (lines 285-297) copies the declared type,
rejecting VOID. -/
def check_expr : TExpr → Except String BType
  | .intE _ => .ok .INT
  | .strE _ => .ok .STRING
  | .readE => .ok .INT
  | .varE t =>
    if t = .VOID then .error "Cannot declare void variable." else .ok t

/-- Embedding of `TypeChecker.expect_type_match`
(src/bpl/type_checker/type_checker.py lines 497-517) for a single tree
node: when `expected_type` is `None` it is replaced by the node's own
type, making the check vacuous. -/
def expect_type_match (expected : Option BType) (nodeTyp : BType) :
    Except String Unit :=
  let e := match expected with
    | none => nodeTyp
    | some t => t
  if nodeTyp = e then .ok () else .error "Mismatched types"

/-- Embedding of `TypeChecker.check_ret_stmt`
(src/bpl/type_checker/type_checker.py lines 237-256).  `ret_type` is
`Option` because `check_stmt` defaults it to `None`; the test
`ret_type == BPLType('VOID')` is false for `None` (see `pyOptEqType`). -/
def check_ret_stmt (val : Option TExpr) (ret_type : Option BType) :
    Except String Unit :=
  if pyOptEqType ret_type .VOID then
    match val with
    | some _ => .error "Cannot return value from void function."
    | none => .ok ()
  else
    match val with
    | some v => do
      let t ← check_expr v
      expect_type_match ret_type t
    | none => .error "Missing return value."

mutual

/-- Embedding of `TypeChecker.check_stmt`
(src/bpl/type_checker/type_checker.py lines 200-226).  Note that the
recursive calls for the bodies of if and while statements (source lines
212-214 and 217) omit the `ret_type` argument, which therefore defaults
to `None` there, while the compound-statement case passes it through. -/
def check_stmt (stmt : TStmt) (ret_type : Option BType) :
    Except String Unit :=
  match stmt with
  | .exprStmt e => do
    let _ ← check_expr e
    .ok ()
  | .compStmt stmts => check_comp_stmt stmts ret_type
  | .ifStmt cond tb fb => do
    let _ ← check_expr cond
    check_stmt tb none
    match fb with
    | some f => check_stmt f none
    | none => .ok ()
  | .whileStmt cond body => do
    let _ ← check_expr cond
    check_stmt body none
  | .retStmt val => check_ret_stmt val ret_type
  | .writeStmt e => do
    let t ← check_expr e
    if t = .INT ∨ t = .STRING then .ok ()
    else .error "Cannot write this type."

/-- Embedding of `TypeChecker.check_comp_stmt`
(src/bpl/type_checker/type_checker.py lines 228-235): check every
statement of the list against the same `ret_type`. -/
def check_comp_stmt (stmts : List TStmt) (ret_type : Option BType) :
    Except String Unit :=
  match stmts with
  | [] => .ok ()
  | s :: rest => do
    check_stmt s ret_type
    check_comp_stmt rest ret_type

end

/-- Embedding of `TypeChecker.check_func`
(src/bpl/type_checker/type_checker.py lines 188-198): check the function
body against the declared return type. -/
def check_func (ret_type : BType) (body : List TStmt) : Except String Unit :=
  check_comp_stmt body (some ret_type)

/-- Claim C3 (refuted; supporting evaluation): type checking was claimed
to reject a value-bearing return in a VOID function, and a missing or
mismatched return value in a non-VOID function, including returns nested
in if and while bodies.  In fact `check_stmt` drops `ret_type` when
recursing into if and while bodies (src/bpl/type_checker/type_checker.py
lines 212-214 and 217), so with `ret_type = None` the VOID test is false
and `expect_type_match(None, ...)` compares the value against its own
type: `void f` with `if (1) return 5;` is accepted, `void f` with
`while (1) return 5;` is accepted, and `int f` with `if (1) return "s";`
is accepted, while the same return directly in the function body is
correctly rejected. -/
theorem nested_return_value_in_void_function_accepted :
    check_func .VOID [.ifStmt (.intE "1") (.retStmt (some (.intE "5"))) none]
      = .ok () ∧
    check_func .VOID [.whileStmt (.intE "1") (.retStmt (some (.intE "5")))]
      = .ok () ∧
    check_func .VOID [.retStmt (some (.intE "5"))]
      = .error "Cannot return value from void function." ∧
    check_func .INT [.ifStmt (.intE "1") (.retStmt (some (.strE "s"))) none]
      = .ok () :=
  ⟨rfl, rfl, rfl, rfl⟩

/-- The `TokenType.constants` debug-name table of src/bpl/scanner/token.py
(lines 47-83). -/
def tokConstName : TokTy → String
  | .ID => "ID" | .NUM => "NUM" | .STRLIT => "STRLIT"
  | .INT => "INT" | .VOID => "VOID" | .STRING => "STRING"
  | .IF => "IF" | .ELSE => "ELSE" | .WHILE => "WHILE"
  | .RETURN => "RETURN" | .WRITE => "WRITE" | .WRITELN => "WRITELN"
  | .READ => "READ"
  | .EQUAL => "EQUAL" | .SEMI => "SEMI" | .COMMA => "COMMA"
  | .LSQUARE => "LSQUARE" | .RSQUARE => "RSQUARE"
  | .LCURLY => "LCURLY" | .RCURLY => "RCURLY"
  | .LPAREN => "LPAREN" | .RPAREN => "RPAREN"
  | .LESS => "LESS" | .LEQUAL => "LEQUAL" | .BOOLEQ => "BOOLEQ"
  | .NEQUAL => "NEQUAL" | .GEQUAL => "GEQUAL" | .GREATER => "GREATER"
  | .PLUS => "PLUS" | .MINUS => "MINUS" | .STAR => "STAR"
  | .SLASH => "SLASH" | .MOD => "MOD" | .AMP => "AMP"
  | .EOF => "EOF"

/-- An operand as received by `CodeGenerator.write_instr`
(src/bpl/code_gen/code_gen.py lines 479-509).  The function tests
`type(source) == int` and prepends a dollar only to `int` operands;
`Register` and `Label` objects and plain strings are interpolated via
their string representation.  A control `Label` produced by
`new_control_label` (line 515-517) is kept structurally as its counter
value; it renders as `.L{n}`. -/
inductive Operand where
  | imm (n : Int)
  | strOp (s : String)
  | ctlLbl (n : Nat)
  deriving DecidableEq, Repr

/-- One line of emitted assembly: an instruction written by `write_instr`
(instruction mnemonic, optional source and destination operands, optional
trailing comment) or a control label line written by `write_label`
(src/bpl/code_gen/code_gen.py lines 511-513). -/
inductive AsmLine where
  | instrL (instr : String) (src dst : Option Operand) (comment : Option String)
  | ctlLabelL (n : Nat)
  deriving DecidableEq, Repr

/-- String form of an operand as interpolated by `write_instr`: dollar
plus decimal for `int` operands, the string itself otherwise. -/
def render_operand : Operand → String
  | .imm n => "$" ++ toString n
  | .strOp s => s
  | .ctlLbl n => ".L" ++ toString n

/-- Embedding of `CodeGenerator.write_instr`
(src/bpl/code_gen/code_gen.py lines 479-509) as a pure rendering of one
instruction line: tab, mnemonic, optional ` src`, optional `, dst`, and
for a comment the tab padding `1 + (32 - (8 + len(statement))) / 8`
computed with Python 2 floor division (a non-positive count yields no
tabs, as `str * n` does). -/
def render_instr (instr : String) (src dst : Option Operand)
    (comment : Option String) : String :=
  let s1 := "\t" ++ instr
  let s2 := match src with
    | none => s1
    | some o => s1 ++ " " ++ render_operand o
  let s3 := match dst with
    | none => s2
    | some o => s2 ++ ", " ++ render_operand o
  match comment with
  | none => s3 ++ "\n"
  | some cmt =>
    let numTabs : Int := 1 + Int.fdiv (32 - (8 + (s3.length : Int))) 8
    s3 ++ String.mk (List.replicate numTabs.toNat '\t') ++ "# " ++ cmt ++ "\n"

/-- String form of one emitted line. -/
def render_line : AsmLine → String
  | .instrL i s d c => render_instr i s d c
  | .ctlLabelL n => ".L" ++ toString n ++ ":\n"

/-- `Register.offset` for the frame pointer: the string `{off}(%rbp)`
(src/bpl/code_gen/code_gen.py lines 15-16). -/
def fpOffset (off : Int) : String :=
  toString off ++ "(%rbp)"

/-- `Register.offset` for the stack pointer: the string `{off}(%rsp)`. -/
def spOffset (off : Int) : String :=
  toString off ++ "(%rsp)"

/-- Declaration kinds a variable expression can be linked to. -/
inductive DKind where
  | VAR_DEC | ARR_DEC
  deriving DecidableEq, Repr

/-- Expressions as consumed by `CodeGenerator.gen_expr`
(src/bpl/code_gen/code_gen.py lines 277-300), restricted to the node
kinds embedded here.  An `IntExpNode` carries the *string* lexeme of the
NUM token (`val=num.val`, src/bpl/parser/parser.py lines 575-582).  A
`varExp` carries the fields of its linked declaration that the emitter
reads: kind, `is_global` and `offset`. -/
inductive GExpr where
  | intExp (val : String)
  | varExp (name : String) (decKind : DKind) (is_global : Bool) (offset : Int)
  | addrExp (e : GExpr)
  | derefExp (e : GExpr)
  | negExp (e : GExpr)
  | arithExp (op : TokTy) (l r : GExpr)
  | compExp (op : TokTy) (l r : GExpr)

/-- Embedding of `CodeGenerator.gen_var_addr`
(src/bpl/code_gen/code_gen.py lines 371-379): `lea` of the global name or
the frame-pointer offset into the scratch register `%r12`. -/
def gen_var_addr (name : String) (is_global : Bool) (offset : Int) :
    List AsmLine :=
  if is_global then
    [.instrL "lea" (some (.strOp name)) (some (.strOp "%r12")) none]
  else
    [.instrL "lea" (some (.strOp (fpOffset offset))) (some (.strOp "%r12")) none]

/-- Embedding of `CodeGenerator.gen_arr_base_addr`
(src/bpl/code_gen/code_gen.py lines 391-404): globals and stack-resident
locals take `lea`, parameters (`offset > 0`) are pointer-valued and take
`mov`. -/
def gen_arr_base_addr (name : String) (is_global : Bool) (offset : Int) :
    List AsmLine :=
  if is_global then
    [.instrL "lea" (some (.strOp name)) (some (.strOp "%r12")) none]
  else if offset > 0 then
    [.instrL "mov" (some (.strOp (fpOffset offset))) (some (.strOp "%r12")) none]
  else
    [.instrL "lea" (some (.strOp (fpOffset offset))) (some (.strOp "%r12")) none]

/-- Embedding of `CodeGenerator.gen_var_expr`
(src/bpl/code_gen/code_gen.py lines 302-309). -/
def gen_var_expr (name : String) (decKind : DKind) (is_global : Bool)
    (offset : Int) : List AsmLine :=
  match decKind with
  | .VAR_DEC =>
    gen_var_addr name is_global offset ++
      [.instrL "mov" (some (.strOp "0(%r12)")) (some (.strOp "%rax")) none]
  | .ARR_DEC =>
    gen_arr_base_addr name is_global offset ++
      [.instrL "mov" (some (.strOp "%r12")) (some (.strOp "%rax")) none]

/-- The jump mnemonic chosen by `CodeGenerator.gen_comp_expr` for the
inverted condition (src/bpl/code_gen/code_gen.py lines 452-463); `none`
models the `NameError` from the unbound local `jump_instr` when the
operator is not one of the six comparison operators. -/
def compJumpInstr : TokTy → Option String
  | .BOOLEQ => some "jne"
  | .NEQUAL => some "je"
  | .LESS => some "jge"
  | .LEQUAL => some "jg"
  | .GREATER => some "jle"
  | .GEQUAL => some "jl"
  | _ => none

/-- Embedding of `CodeGenerator.gen_comp_expr`
(src/bpl/code_gen/code_gen.py lines 441-469).  On entry the LHS value is
on top of the stack and the RHS value is in the accumulator.  The
counter argument models the monotonic control-label counter:
`false_label` and `continue_label` are the next two labels. -/
def gen_comp_expr (op : TokTy) (cnt : Nat) :
    Except String (List AsmLine × Nat) :=
  match compJumpInstr op with
  | none => .error "NameError: local variable jump_instr referenced before assignment"
  | some j =>
    .ok ([.instrL "cmp" (some (.strOp "%rax")) (some (.strOp "0(%rsp)"))
            (some ("LHS " ++ tokConstName op ++ " RHS")),
          .instrL j (some (.ctlLbl cnt)) none none,
          .instrL "mov" (some (.imm 1)) (some (.strOp "%rax")) none,
          .instrL "jmp" (some (.ctlLbl (cnt + 1))) none none,
          .ctlLabelL cnt,
          .instrL "mov" (some (.imm 0)) (some (.strOp "%rax")) none,
          .ctlLabelL (cnt + 1)], cnt + 2)

/-- Embedding of `CodeGenerator.gen_arith_expr`
(src/bpl/code_gen/code_gen.py lines 421-439).  On entry the LHS value is
on top of the stack and the RHS value is in the accumulator.  The
`if`-chain has no final `else`, so an unexpected operator emits
nothing. -/
def gen_arith_expr (op : TokTy) : List AsmLine :=
  match op with
  | .PLUS =>
    [.instrL "add" (some (.strOp "0(%rsp)")) (some (.strOp "%rax"))
       (some "perform addition")]
  | .MINUS =>
    [.instrL "sub" (some (.strOp "%rax")) (some (.strOp "0(%rsp)"))
       (some "perform subtraction"),
     .instrL "mov" (some (.strOp "0(%rsp)")) (some (.strOp "%rax")) none]
  | .STAR =>
    [.instrL "imul" (some (.strOp "0(%rsp)")) (some (.strOp "%rax"))
       (some "perform multiplication")]
  | .SLASH =>
    [.instrL "mov" (some (.strOp "%rax")) (some (.strOp "%rbx"))
       (some "move divisor"),
     .instrL "mov" (some (.strOp "0(%rsp)")) (some (.strOp "%rax"))
       (some "move dividend"),
     .instrL "cqto" none none none,
     .instrL "idiv" (some (.strOp "%rbx")) none (some "perform division")]
  | .MOD =>
    [.instrL "mov" (some (.strOp "%rax")) (some (.strOp "%rbx"))
       (some "move divisor"),
     .instrL "mov" (some (.strOp "0(%rsp)")) (some (.strOp "%rax"))
       (some "move dividend"),
     .instrL "cqto" none none none,
     .instrL "idiv" (some (.strOp "%rbx")) none (some "perform division"),
     .instrL "mov" (some (.strOp "%rdx")) (some (.strOp "%rax")) none]
  | _ => []

/-- Embedding of `CodeGenerator.gen_expr`
(src/bpl/code_gen/code_gen.py lines 277-300) and the helpers it
dispatches to, threading the control-label counter.

The `INT_EXP` case (line 298) passes `expr.val` — the NUM token's string
lexeme — to `write_instr`, so the operand is a `str` and receives *no*
dollar prefix.

The `ADDR_EXP` case calls `gen_addr_expr` (lines 316-322), whose first
branch condition reads `self.expr.exp.kind`; `CodeGenerator` never
assigns an attribute named `expr`, so evaluating that condition raises an
`AttributeError` before any instruction is written, whatever the operand
is.

The binary cases follow `gen_binary_expr` (lines 406-419): evaluate the
left operand, push it, evaluate the right operand, run the arithmetic or
comparison tail, then pop the stack slot. -/
def gen_expr : GExpr → Nat → Except String (List AsmLine × Nat)
  | .intExp val, cnt =>
    .ok ([.instrL "mov" (some (.strOp val)) (some (.strOp "%rax")) none], cnt)
  | .varExp name k g off, cnt =>
    .ok (gen_var_expr name k g off, cnt)
  | .addrExp _, _ =>
    .error "AttributeError: CodeGenerator instance has no attribute expr"
  | .derefExp e, cnt => do
    let (code, cnt1) ← gen_expr e cnt
    .ok (code ++
      [.instrL "mov" (some (.strOp "0(%rax)")) (some (.strOp "%rax")) none], cnt1)
  | .negExp e, cnt => do
    let (code, cnt1) ← gen_expr e cnt
    .ok (code ++
      [.instrL "push" (some (.strOp "%rax")) none none,
       .instrL "mov" (some (.imm 0)) (some (.strOp "%rax")) none,
       .instrL "sub" (some (.strOp "0(%rsp)")) (some (.strOp "%rax")) none,
       .instrL "add" (some (.imm 8)) (some (.strOp "%rsp")) none], cnt1)
  | .arithExp op l r, cnt => do
    let (cl, cnt1) ← gen_expr l cnt
    let (cr, cnt2) ← gen_expr r cnt1
    .ok (cl ++
      [.instrL "push" (some (.strOp "%rax")) none (some "push LHS")] ++
      cr ++ gen_arith_expr op ++
      [.instrL "add" (some (.imm 8)) (some (.strOp "%rsp"))
         (some "pop LHS from stack")], cnt2)
  | .compExp op l r, cnt => do
    let (cl, cnt1) ← gen_expr l cnt
    let (cr, cnt2) ← gen_expr r cnt1
    let (cc, cnt3) ← gen_comp_expr op cnt2
    .ok (cl ++
      [.instrL "push" (some (.strOp "%rax")) none (some "push LHS")] ++
      cr ++ cc ++
      [.instrL "add" (some (.imm 8)) (some (.strOp "%rsp"))
         (some "pop LHS from stack")], cnt3)

/-- Statements as seen by `CodeGenerator.assign_offsets_stmt`
(src/bpl/code_gen/code_gen.py lines 106-137): compound statements carry
local declarations and a statement list, if and while statements carry
bodies, and every other statement kind contributes nothing. -/
inductive OStmt where
  | comp (local_decs : List Dec) (stmt_list : List OStmt)
  | ifS (true_body : OStmt) (false_body : Option OStmt)
  | whileS (body : OStmt)
  | simple

/-- The name of a declaration. -/
def Dec.name : Dec → String
  | .varDec n => n
  | .arrDec n _ => n
  | .funDec n => n

/-- The `for local_dec in stmt.local_decs` loop of
`assign_offsets_stmt` (src/bpl/code_gen/code_gen.py lines 114-124),
returning the assignments `(name, offset)` it records and the cursor for
the next declaration.  For an `ARR_DEC` the source computes
`dec_offset -= self.WORD_SIZE * (local_dec.size - 1)`; `local_dec.size`
is the string lexeme stored by the parser
(src/bpl/parser/parser.py lines 121-124), and in Python 2 `str - int`
raises a `TypeError`, modelled by the error case. -/
def assign_offsets_decs : List Dec → Int →
    Except String (List (String × Int) × Int)
  | [], off => .ok ([], off)
  | .arrDec _ _ :: _, _ =>
    .error "TypeError: unsupported operand types for -: str and int"
  | d :: rest, off => do
    let (a1, off1) ← assign_offsets_decs rest (off - 8)
    .ok ((d.name, off) :: a1, off1)

mutual

/-- Embedding of `CodeGenerator.assign_offsets_stmt`
(src/bpl/code_gen/code_gen.py lines 106-137): thread the descending
offset cursor through local declarations, nested compound statements and
both branches of if statements, returning the recorded `(name, offset)`
assignments and the offset for the next declaration. -/
def assign_offsets_stmt : OStmt → Int →
    Except String (List (String × Int) × Int)
  | .comp decs stmts, off => do
    let (a1, off1) ← assign_offsets_decs decs off
    let (a2, off2) ← assign_offsets_stmt_list stmts off1
    .ok (a1 ++ a2, off2)
  | .ifS tb fb, off => do
    let (a1, off1) ← assign_offsets_stmt tb off
    match fb with
    | some f => do
      let (a2, off2) ← assign_offsets_stmt f off1
      .ok (a1 ++ a2, off2)
    | none => .ok (a1, off1)
  | .whileS body, off => assign_offsets_stmt body off
  | .simple, off => .ok ([], off)

/-- The `for body_stmt in stmt.stmt_list` loop of
`assign_offsets_stmt` (src/bpl/code_gen/code_gen.py lines 126-128). -/
def assign_offsets_stmt_list : List OStmt → Int →
    Except String (List (String × Int) × Int)
  | [], off => .ok ([], off)
  | s :: rest, off => do
    let (a1, off1) ← assign_offsets_stmt s off
    let (a2, off2) ← assign_offsets_stmt_list rest off1
    .ok (a1 ++ a2, off2)

end

/-- The parameter loop of `CodeGenerator.assign_offsets_func`
(src/bpl/code_gen/code_gen.py lines 91-96): offsets ascend from the given
start in steps of `WORD_SIZE` in declaration order, 8 bytes for every
parameter whatever its kind. -/
def assign_param_offsets : List Dec → Int → List (String × Int)
  | [], _ => []
  | d :: rest, off => (d.name, off) :: assign_param_offsets rest (off + 8)

/-- A function declaration as the offset assigner sees it: the parameter
list (`None` for a `void` parameter list) and the body compound
statement. -/
structure OFunc where
  params : Option (List Dec)
  body : OStmt

/-- Embedding of `CodeGenerator.assign_offsets_func`
(src/bpl/code_gen/code_gen.py lines 86-104): parameters start at
`2 * WORD_SIZE = 16`; locals start at `-WORD_SIZE = -8`;
`locals_size = -(next cursor) - WORD_SIZE`.  Returns the parameter
assignments, the local assignments, and `locals_size`. -/
def assign_offsets_func (f : OFunc) :
    Except String (List (String × Int) × List (String × Int) × Int) := do
  let paramsAssigned := match f.params with
    | none => []
    | some ps => assign_param_offsets ps (2 * 8)
  let (localsAssigned, nextOff) ← assign_offsets_stmt f.body (-8)
  .ok (paramsAssigned, localsAssigned, -nextOff - 8)

/-- Embedding of the `.comm` loop of `CodeGenerator.gen_header`
(src/bpl/code_gen/code_gen.py lines 186-191): one
`\t.comm name, bytes, 64` line per global scalar (`WORD_SIZE` bytes, a
Python `int`) or global array (`dec.size * self.WORD_SIZE`, where
`dec.size` is the size token's *string* lexeme, so the Python 2 product
is string repetition — see `pyStrMul`); function declarations emit
nothing here. -/
def gen_header_comm : List Dec → List String
  | [] => []
  | .varDec n :: rest =>
    ("\t.comm " ++ n ++ ", 8, 64\n") :: gen_header_comm rest
  | .arrDec n size :: rest =>
    ("\t.comm " ++ n ++ ", " ++ pyStrMul size 8 ++ ", 64\n")
      :: gen_header_comm rest
  | .funDec _ :: rest => gen_header_comm rest

/-- Machine state for executing an emitted comparison sequence: the
accumulator `%rax`, the 64-bit word at `0(%rsp)` (the pushed LHS), and
the flags recorded by the last `cmp` as the pair (destination value,
source value).  Values are mathematical integers: the comparison operands
are 64-bit signed quantities and the conditional jumps used here are the
signed ones, so no wrap-around is involved in a single `cmp`/`jcc`
pair. -/
structure MachSt where
  acc : Int
  stack0 : Int
  flags : Option (Int × Int)
  deriving DecidableEq, Repr

/-- Reading an operand in this machine model: immediates are their value,
`%rax` is the accumulator, `0(%rsp)` is the stack top.  Anything else is
outside the fragment and gets stuck. -/
def readOp (st : MachSt) : Operand → Option Int
  | .imm n => some n
  | .strOp s =>
    if s = "%rax" then some st.acc
    else if s = "0(%rsp)" then some st.stack0
    else none
  | .ctlLbl _ => none

/-- AT&T `cmp src, dst` sets the flags from `dst - src`; a subsequent
signed conditional jump `j` is taken under the condition below, stated
directly on the recorded pair `(d, s)`. -/
def jumpTaken (j : String) (d s : Int) : Option Bool :=
  if j = "jne" then some (decide (d ≠ s))
  else if j = "je" then some (decide (d = s))
  else if j = "jge" then some (decide (s ≤ d))
  else if j = "jg" then some (decide (s < d))
  else if j = "jle" then some (decide (d ≤ s))
  else if j = "jl" then some (decide (d < s))
  else none

/-- Skip forward past the line carrying control label `n`: the suffix of
the program that follows that label line.  Jumping to a label resumes
execution there; the fragment emitted by `gen_comp_expr` only ever jumps
forward. -/
def skipToLabel (n : Nat) : List AsmLine → List AsmLine
  | [] => []
  | .ctlLabelL m :: rest => if m = n then rest else skipToLabel n rest
  | _ :: rest => skipToLabel n rest

/-- Skipping to a label never lengthens the program. -/
theorem skipToLabel_length_le (n : Nat) :
    ∀ l : List AsmLine, (skipToLabel n l).length ≤ l.length := by
  intro l
  induction l with
  | nil => simp [skipToLabel]
  | cons hd tl ih =>
    cases hd with
    | instrL i s d c => simpa [skipToLabel] using Nat.le_succ_of_le ih
    | ctlLabelL m =>
      by_cases hm : m = n
      · simp [skipToLabel, hm]
      · simpa [skipToLabel, hm] using Nat.le_succ_of_le ih

/-- A small executor for emitted instruction lists covering exactly the
fragment `gen_comp_expr` produces: `cmp`, `mov` into `%rax`,
unconditional `jmp` and the six signed conditional jumps (all jumps
forward-only), plus label lines.  Execution stops successfully at the end
of the program; `none` means the model is stuck on an instruction or
operand outside the fragment. -/
def runSeq : List AsmLine → MachSt → Option MachSt
  | [], st => some st
  | .ctlLabelL _ :: rest, st => runSeq rest st
  | .instrL name src dst _ :: rest, st =>
    if name = "cmp" then
      match src, dst with
      | some s, some d => do
        let sv ← readOp st s
        let dv ← readOp st d
        runSeq rest { st with flags := some (dv, sv) }
      | _, _ => none
    else if name = "mov" then
      match src, dst with
      | some s, some (.strOp d) =>
        if d = "%rax" then do
          let sv ← readOp st s
          runSeq rest { st with acc := sv }
        else none
      | _, _ => none
    else if name = "jmp" then
      match src with
      | some (.ctlLbl n) => runSeq (skipToLabel n rest) st
      | _ => none
    else
      match src, st.flags with
      | some (.ctlLbl n), some (d, s) =>
        match jumpTaken name d s with
        | some true => runSeq (skipToLabel n rest) st
        | some false => runSeq rest st
        | none => none
      | _, _ => none
termination_by l _ => l.length
decreasing_by
  all_goals simp_wf
  all_goals exact Nat.lt_succ_of_le (skipToLabel_length_le _ _)

/-- The mathematical meaning of a BPL comparison operator on integers:
`LHS op RHS`. -/
def compSemB (op : TokTy) (lhs rhs : Int) : Bool :=
  match op with
  | .BOOLEQ => decide (lhs = rhs)
  | .NEQUAL => decide (lhs ≠ rhs)
  | .LESS => decide (lhs < rhs)
  | .LEQUAL => decide (lhs ≤ rhs)
  | .GREATER => decide (rhs < lhs)
  | .GEQUAL => decide (rhs ≤ lhs)
  | _ => false

/-- Claim C8: for every comparison expression, `gen_comp_expr` emits
`cmp %rax, 0(%rsp)` (LHS on the stack against RHS in the accumulator),
a conditional jump on the inverted condition to the false label (`jne`
for `==`, `je` for `!=`, `jge` for `<`, `jg` for `<=`, `jle` for `>`,
`jl` for `>=`), `mov $1, %rax` on the fall-through path, a `jmp` over the
false label, and `mov $0, %rax` at the false label — and executing that
sequence from a state with the LHS at `0(%rsp)` and the RHS in `%rax`
leaves `%rax` holding 1 exactly when `LHS op RHS` holds. -/
theorem comp_expr_sequence_and_semantics (op : TokTy) (lhs rhs : Int)
    (cnt : Nat)
    (h : op ∈ [TokTy.BOOLEQ, TokTy.NEQUAL, TokTy.LESS, TokTy.LEQUAL,
               TokTy.GREATER, TokTy.GEQUAL]) :
    ∃ prog,
      gen_comp_expr op cnt = .ok (prog, cnt + 2) ∧
      prog = [.instrL "cmp" (some (.strOp "%rax")) (some (.strOp "0(%rsp)"))
                (some ("LHS " ++ tokConstName op ++ " RHS")),
              .instrL (match op with
                       | .BOOLEQ => "jne" | .NEQUAL => "je" | .LESS => "jge"
                       | .LEQUAL => "jg" | .GREATER => "jle" | _ => "jl")
                (some (.ctlLbl cnt)) none none,
              .instrL "mov" (some (.imm 1)) (some (.strOp "%rax")) none,
              .instrL "jmp" (some (.ctlLbl (cnt + 1))) none none,
              .ctlLabelL cnt,
              .instrL "mov" (some (.imm 0)) (some (.strOp "%rax")) none,
              .ctlLabelL (cnt + 1)] ∧
      runSeq prog ⟨rhs, lhs, none⟩
        = some ⟨if compSemB op lhs rhs then 1 else 0, lhs, some (lhs, rhs)⟩ := by
  have hne : ¬ (cnt = cnt + 1) := by omega
  fin_cases h
  · refine ⟨_, rfl, rfl, ?_⟩
    by_cases hc : lhs = rhs <;>
      simp [runSeq, skipToLabel, readOp, jumpTaken, compSemB, hc, hne]
  · refine ⟨_, rfl, rfl, ?_⟩
    by_cases hc : lhs = rhs <;>
      simp [runSeq, skipToLabel, readOp, jumpTaken, compSemB, hc, hne]
  · refine ⟨_, rfl, rfl, ?_⟩
    by_cases hc : lhs < rhs
    · simp [runSeq, skipToLabel, readOp, jumpTaken, compSemB, hc, hne,
            not_le.mpr hc]
    · simp [runSeq, skipToLabel, readOp, jumpTaken, compSemB, hc, hne,
            not_lt.mp hc]
  · refine ⟨_, rfl, rfl, ?_⟩
    by_cases hc : lhs ≤ rhs
    · simp [runSeq, skipToLabel, readOp, jumpTaken, compSemB, hc, hne,
            not_lt.mpr hc]
    · simp [runSeq, skipToLabel, readOp, jumpTaken, compSemB, hc, hne,
            not_le.mp hc]
  · refine ⟨_, rfl, rfl, ?_⟩
    by_cases hc : rhs < lhs
    · simp [runSeq, skipToLabel, readOp, jumpTaken, compSemB, hc, hne,
            not_le.mpr hc]
    · simp [runSeq, skipToLabel, readOp, jumpTaken, compSemB, hc, hne,
            not_lt.mp hc]
  · refine ⟨_, rfl, rfl, ?_⟩
    by_cases hc : rhs ≤ lhs
    · simp [runSeq, skipToLabel, readOp, jumpTaken, compSemB, hc, hne,
            not_lt.mpr hc]
    · simp [runSeq, skipToLabel, readOp, jumpTaken, compSemB, hc, hne,
            not_le.mp hc]

/-- Witness for C8: the equality comparison at label counter 0, run on
equal operands, yields accumulator 1. -/
theorem comp_expr_sequence_and_semantics_witness :
    (TokTy.BOOLEQ ∈ [TokTy.BOOLEQ, TokTy.NEQUAL, TokTy.LESS, TokTy.LEQUAL,
                     TokTy.GREATER, TokTy.GEQUAL]) ∧
    ∃ prog,
      gen_comp_expr .BOOLEQ 0 = .ok (prog, 0 + 2) ∧
      prog = [.instrL "cmp" (some (.strOp "%rax")) (some (.strOp "0(%rsp)"))
                (some ("LHS " ++ tokConstName .BOOLEQ ++ " RHS")),
              .instrL (match TokTy.BOOLEQ with
                       | .BOOLEQ => "jne" | .NEQUAL => "je" | .LESS => "jge"
                       | .LEQUAL => "jg" | .GREATER => "jle" | _ => "jl")
                (some (.ctlLbl 0)) none none,
              .instrL "mov" (some (.imm 1)) (some (.strOp "%rax")) none,
              .instrL "jmp" (some (.ctlLbl (0 + 1))) none none,
              .ctlLabelL 0,
              .instrL "mov" (some (.imm 0)) (some (.strOp "%rax")) none,
              .ctlLabelL (0 + 1)] ∧
      runSeq prog ⟨3, 3, none⟩
        = some ⟨if compSemB .BOOLEQ 3 3 then 1 else 0, 3, some (3, 3)⟩ :=
  ⟨by decide, comp_expr_sequence_and_semantics .BOOLEQ 3 3 0 (by decide)⟩

/-- Claim C1 (refuted; supporting evaluation): the emitter was claimed to
load an integer literal as a dollar-prefixed immediate into `%rax`.  In
fact `gen_expr` passes `expr.val` — the NUM token's string lexeme — to
`write_instr` (src/bpl/code_gen/code_gen.py line 298), and `write_instr`
prepends a dollar only when `type(source) == int` (lines 492-493), so the
emitted instruction is `mov 7, %rax`, an absolute-address memory operand,
not the immediate `mov $7, %rax` that an `int`-typed operand would have
produced. -/
theorem intlit_mov_operand_lacks_dollar (cnt : Nat) :
    gen_expr (.intExp "7") cnt
      = .ok ([.instrL "mov" (some (.strOp "7")) (some (.strOp "%rax")) none],
             cnt) ∧
    render_instr "mov" (some (.strOp "7")) (some (.strOp "%rax")) none
      = "\tmov 7, %rax\n" ∧
    render_instr "mov" (some (.imm 7)) (some (.strOp "%rax")) none
      = "\tmov $7, %rax\n" ∧
    ("\tmov 7, %rax\n" : String) ≠ "\tmov $7, %rax\n" :=
  ⟨rfl, rfl, rfl, by decide⟩

/-- Claim C7 (refuted; supporting evaluation): code generation for an
address-of expression was claimed to complete, computing the operand's
address into the scratch register.  In fact `gen_addr_expr`
(src/bpl/code_gen/code_gen.py line 318) evaluates `self.expr.exp.kind`,
and `CodeGenerator` never assigns an attribute named `expr`, so every
address-of expression — here `&x` for a local scalar `x` — aborts code
generation with an `AttributeError`. -/
theorem addr_expr_codegen_raises_attribute_error (cnt : Nat) :
    gen_expr (.addrExp (.varExp "x" .VAR_DEC false (-8))) cnt
      = .error "AttributeError: CodeGenerator instance has no attribute expr" :=
  rfl

/-- Claim C2 (refuted; supporting evaluation): offset assignment was
claimed to give a local array declaration of size n a block of n*8 bytes.
In fact `assign_offsets_stmt` computes
`dec_offset -= self.WORD_SIZE * (local_dec.size - 1)`
(src/bpl/code_gen/code_gen.py line 117) where `local_dec.size` is the
size token's string lexeme, so Python 2 raises a `TypeError` on any
function with a local array — here `int a[2];` — before any offset is
recorded.  For parameter and scalar-only functions the claimed layout
does hold: parameters ascend from +16 in steps of 8, scalar locals
descend from -8 through nested statements, and `locals_size` is the
absolute value of the lowest offset used. -/
theorem local_array_offset_assignment_raises_type_error :
    assign_offsets_func ⟨none, .comp [.arrDec "a" "2"] [.simple]⟩
      = .error "TypeError: unsupported operand types for -: str and int" ∧
    assign_offsets_func
        ⟨some [.varDec "p", .varDec "q"],
         .comp [.varDec "x"] [.ifS (.comp [.varDec "y"] []) none]⟩
      = .ok ([("p", 16), ("q", 24)], [("x", -8), ("y", -16)], 16) :=
  ⟨rfl, rfl⟩

/-- Claim C5 (refuted; supporting evaluation): the assembly header was
claimed to reserve n*8 bytes for a global array of size n.  In fact
`gen_header` computes `dec.size * self.WORD_SIZE`
(src/bpl/code_gen/code_gen.py line 191) where `dec.size` is the size
token's string lexeme, and Python 2 string repetition turns size 3 into
`33333333` — the lexeme repeated 8 times — rather than 24.  Global
scalars, whose byte count comes from the `int` constant `WORD_SIZE`, are
correctly given 8 bytes with alignment 64. -/
theorem global_array_comm_size_is_string_repetition :
    gen_header_comm [.arrDec "a" "3"] = ["\t.comm a, 33333333, 64\n"] ∧
    gen_header_comm [.arrDec "a" "3"] ≠ ["\t.comm a, 24, 64\n"] ∧
    gen_header_comm [.varDec "x"] = ["\t.comm x, 8, 64\n"] :=
  ⟨rfl, by decide, rfl⟩
